import Mathlib

/-!
Verification of the surfinBH 3dq8 fit evaluator
(`src/surfinBH/_fit_evaluators/fit_3dq8.py`).

The module has three pieces:
  * `_get_fit_params` — maps physical parameters `[q, chiAz, chiBz]` to the
    fit coordinates `[log q, chiHat, chi_a]`;
  * `_check_param_limits` — validates `q`, the in-plane spin components and
    the z-spin magnitudes, warning or raising;
  * `_eval_wrapper` — validates, checks keyword options, then dispatches on a
    fit key, calling the external scalar-fit evaluator once per needed scalar.

Python floats are modelled as exact rationals (`ℚ`); the transcendental
`np.log` appears only in the mapper, which is modelled over `ℝ`.
The external evaluator `_evaluate_fits` is out of scope in the source
(provided by the base class), so it is a parameter `ev : String → ℚ × ℚ`.
-/

namespace SurfinBH3dq8

/-- A 3-vector of (exact) rationals, modelling a numpy array of 3 floats. -/
structure Vec3 where
  x : ℚ
  y : ℚ
  z : ℚ
  deriving DecidableEq, Repr

/-- Errors raised by the fit evaluator.
`invalidInput` models Python `ValueError`; `outOfRange` models the bare
`Exception` raised for out-of-allowed-range parameters; `unsupportedOption`
models the error raised by the base class for unused keyword arguments. -/
inductive FitError where
  | invalidInput : String → FitError
  | outOfRange : String → FitError
  | unsupportedOption : String → FitError
  deriving DecidableEq, Repr

/-- The in-plane tolerance `1e-10` of `_check_param_limits` (exact). -/
def inPlaneTol : ℚ := 1e-10

/-- Source: `np.sqrt(np.sum(chi[:2]**2)) > 1e-10`.
Since both sides are nonnegative, the comparison is equivalent to comparing
squares, which keeps the check exact over `ℚ`; `inPlaneBad_iff_sqrt` below
proves this form equivalent to the square-root comparison over `ℝ`. -/
def inPlaneBad (v : Vec3) : Bool :=
  decide (inPlaneTol ^ 2 < v.x ^ 2 + v.y ^ 2)

/-- Source: `_check_param_limits(q, chiA, chiB)`.  Returns the list of
warnings emitted (in emission order) on success, or the first error raised.
Check order follows the source exactly: chiA in-plane, chiB in-plane,
`q` chain (`< 1` / `> 10.01` / `> 8.01`), chiA z-spin chain
(`> 1` / `> 0.81`), chiB z-spin chain. -/
def check_param_limits (q : ℚ) (chiA chiB : Vec3) : Except FitError (List String) :=
  if inPlaneBad chiA then
    .error (.invalidInput "The x and y components of chiA should be zero.")
  else if inPlaneBad chiB then
    .error (.invalidInput "The x and y components of chiB should be zero.")
  else if q < 1 then
    .error (.invalidInput "Mass ratio should be >= 1.")
  else if q > 10.01 then
    .error (.outOfRange "Mass ratio outside allowed range.")
  else
    let wq := if q > 8.01 then ["Mass ratio outside training range."] else []
    if |chiA.z| > 1 then
      .error (.outOfRange "Spin magnitude of BhA outside allowed range.")
    else
      let wA := if |chiA.z| > 0.81 then
        ["Spin magnitude of BhA outside training range."] else []
      if |chiB.z| > 1 then
        .error (.outOfRange "Spin magnitude of BhB outside allowed range.")
      else
        let wB := if |chiB.z| > 0.81 then
          ["Spin magnitude of BhB outside training range."] else []
        .ok (wq ++ wA ++ wB)

/-- Source: `_get_fit_params`, mapping `[q, chiAz, chiBz]` to
`[np.log(q), chiHat, chi_a]`.  Modelled over `ℝ` because of `np.log`. -/
noncomputable def get_fit_params (q chiAz chiBz : ℝ) : List ℝ :=
  let eta := q / (1 + q) ^ 2
  let chi_wtAvg := (q * chiAz + chiBz) / (1 + q)
  let chiHat := (chi_wtAvg - 38 * eta / 113 * (chiAz + chiBz)) / (1 - 76 * eta / 113)
  let chi_a := (chiAz - chiBz) / 2
  [Real.log q, chiHat, chi_a]

/-- The fit-coordinate list exactly as the specification words it:
`[ln(q), chiHat, (chiAz - chiBz)/2]` with `eta = q/(1+q)^2`,
`chi_wtAvg = (q*chiAz + chiBz)/(1+q)` and
`chiHat = (chi_wtAvg - (38/113)*eta*(chiAz+chiBz)) / (1 - (76/113)*eta)`. -/
noncomputable def fit_params_spec (q chiAz chiBz : ℝ) : List ℝ :=
  let eta := q / (1 + q) ^ 2
  let chi_wtAvg := (q * chiAz + chiBz) / (1 + q)
  let chiHat := (chi_wtAvg - (38 / 113) * eta * (chiAz + chiBz)) / (1 - (76 / 113) * eta)
  [Real.log q, chiHat, (chiAz - chiBz) / 2]

/-- Results returned by `_eval_wrapper`: a scalar pair (`mC` branch), a pair
of 3-vectors (`chiC` and `velC` branches), or the full 6-tuple (`all`). -/
inductive FitResult where
  | scalar : ℚ → ℚ → FitResult
  | vector : Vec3 → Vec3 → FitResult
  | full : ℚ → Vec3 → Vec3 → ℚ → Vec3 → Vec3 → FitResult
  deriving DecidableEq, Repr

/-- The evaluation monad: exceptions over a log of the fit keys passed to the
external scalar-fit evaluator, in call order.  The log survives a raised
error, so "no evaluator call happens before the error" is observable. -/
abbrev EvalM := ExceptT FitError (StateM (List String))

/-- One call `self._evaluate_fits(x, key)` to the external evaluator `ev`:
records the key in the call log and returns `ev key`. -/
def callFit (ev : String → ℚ × ℚ) (key : String) : EvalM (ℚ × ℚ) := do
  modify (fun calls => calls ++ [key])
  pure (ev key)

/-- Lifts the pure validator into the evaluation monad, re-raising its
error. -/
def liftCheck {α : Type} (e : Except FitError α) : EvalM α :=
  match e with
  | .error err => throw err
  | .ok a => pure a

/-- Modelled from the spec: `_check_unused_kwargs` lives in the base class
`surfinBH.SurFinBH`, which is not under `src/`.  Per the spec, any
unrecognized evaluation option is rejected (`UnsupportedOption`) — "the
system recognizes no evaluation-time options beyond the selector itself". -/
def check_unused_kwargs (kwargs : List String) : EvalM Unit :=
  match kwargs with
  | [] => pure ()
  | k :: _ => throw (.unsupportedOption k)

/-- Source: `_eval_wrapper(fit_key, q, chiA, chiB, **kwargs)`.
Validates the parameters, rejects unused keyword options, then dispatches on
`fit_key`.  The source's chained `if fit_key == k or fit_key == 'all'`
blocks with early returns are flattened per concrete key, preserving the
evaluator-call order (`mC`, `chiCz`, `velCx`, `velCy` for `'all'`) and the
fall-through `None` (here `none`) for an unrecognized key.  Returns the
validator warnings together with the result. -/
def eval_wrapper (ev : String → ℚ × ℚ) (fit_key : String) (q : ℚ)
    (chiA chiB : Vec3) (kwargs : List String) :
    EvalM (List String × Option FitResult) := do
  let ws ← liftCheck (check_param_limits q chiA chiB)
  check_unused_kwargs kwargs
  if fit_key = "mC" then
    let r ← callFit ev "mC"
    pure (ws, some (.scalar r.1 r.2))
  else if fit_key = "chiC" then
    let r ← callFit ev "chiCz"
    pure (ws, some (.vector ⟨0, 0, r.1⟩ ⟨0, 0, r.2⟩))
  else if fit_key = "velC" then
    let rx ← callFit ev "velCx"
    let ry ← callFit ev "velCy"
    pure (ws, some (.vector ⟨rx.1, ry.1, 0⟩ ⟨rx.2, ry.2, 0⟩))
  else if fit_key = "all" then
    let rm ← callFit ev "mC"
    let rc ← callFit ev "chiCz"
    let rx ← callFit ev "velCx"
    let ry ← callFit ev "velCy"
    pure (ws, some (.full rm.1 ⟨0, 0, rc.1⟩ ⟨rx.1, ry.1, 0⟩
      rm.2 ⟨0, 0, rc.2⟩ ⟨rx.2, ry.2, 0⟩))
  else
    pure (ws, none)

/-- Runs `eval_wrapper` from an empty call log; yields the outcome together
with the list of evaluator calls that were actually made (also on error). -/
def runEval (ev : String → ℚ × ℚ) (fit_key : String) (q : ℚ)
    (chiA chiB : Vec3) (kwargs : List String) :
    Except FitError (List String × Option FitResult) × List String :=
  ((eval_wrapper ev fit_key q chiA chiB kwargs).run).run []

/-- The squared in-plane check is the source's square-root comparison:
`inPlaneBad v` holds iff `sqrt(v.x² + v.y²) > 1e-10` over the reals. -/
theorem inPlaneBad_iff_sqrt (v : Vec3) :
    inPlaneBad v = true ↔
      (1e-10 : ℝ) < Real.sqrt ((v.x : ℝ) ^ 2 + (v.y : ℝ) ^ 2) := by
  rw [inPlaneBad, decide_eq_true_eq,
    Real.lt_sqrt (by norm_num : (0:ℝ) ≤ 1e-10)]
  rw [show ((1e-10 : ℝ)) = ((inPlaneTol : ℚ) : ℝ) by norm_num [inPlaneTol]]
  constructor <;> intro h <;> exact_mod_cast h

/-- The negated form of `inPlaneBad_iff_sqrt`: the in-plane check passes iff
the in-plane magnitude is at most `1e-10`. -/
theorem inPlaneBad_eq_false_iff (v : Vec3) :
    inPlaneBad v = false ↔
      Real.sqrt ((v.x : ℝ) ^ 2 + (v.y : ℝ) ^ 2) ≤ (1e-10 : ℝ) := by
  rw [← Bool.not_eq_true, not_iff_comm, inPlaneBad_iff_sqrt, not_le]

/-- C1: for every `(q, chiAz, chiBz)` with `q ≥ 1`, `_get_fit_params`
returns exactly `[ln q, chiHat, (chiAz - chiBz)/2]` with
`eta = q/(1+q)^2`, `chi_wtAvg = (q*chiAz + chiBz)/(1+q)` and
`chiHat = (chi_wtAvg - (38/113)*eta*(chiAz+chiBz)) / (1 - (76/113)*eta)`;
in particular for `q = 1`, `chiAz = chiBz = 0` it returns `[0, 0, 0]`. -/
theorem get_fit_params_correct (q chiAz chiBz : ℝ) (_hq : 1 ≤ q) :
    get_fit_params q chiAz chiBz = fit_params_spec q chiAz chiBz ∧
    get_fit_params 1 0 0 = [0, 0, 0] := by
  constructor
  · simp only [get_fit_params, fit_params_spec, List.cons.injEq, and_true, true_and]
    ring_nf
  · norm_num [get_fit_params, Real.log_one]

/-- Witness for C1 at `q = 2`, `chiAz = chiBz = 0`. -/
theorem get_fit_params_correct_witness :
    (1 : ℝ) ≤ 2 ∧
    (get_fit_params 2 0 0 = fit_params_spec 2 0 0 ∧
     get_fit_params 1 0 0 = [0, 0, 0]) :=
  ⟨by norm_num, get_fit_params_correct 2 0 0 (by norm_num)⟩

/-- C2: for every input accepted by the validator (and with no keyword
options), `_eval_wrapper` with fit key `'all'` calls the external evaluator
exactly four times, on `mC`, `chiCz`, `velCx`, `velCy` in that order, and
returns the 6-tuple `(mC, chiC, velC, mC_err, chiC_err, velC_err)`, where
the spin vectors have zero x,y components and the kick vectors have zero
z component, regardless of what the evaluator returns. -/
theorem eval_wrapper_all (ev : String → ℚ × ℚ) (q : ℚ) (chiA chiB : Vec3)
    (ws : List String) (h : check_param_limits q chiA chiB = .ok ws) :
    runEval ev "all" q chiA chiB [] =
      (.ok (ws, some (.full (ev "mC").1 ⟨0, 0, (ev "chiCz").1⟩
        ⟨(ev "velCx").1, (ev "velCy").1, 0⟩ (ev "mC").2
        ⟨0, 0, (ev "chiCz").2⟩ ⟨(ev "velCx").2, (ev "velCy").2, 0⟩)),
       ["mC", "chiCz", "velCx", "velCy"]) := by
  simp only [runEval, eval_wrapper, h, liftCheck]
  rfl

/-- Witness for C2 at `q = 4.3`, `chiA = [0,0,0.6]`, `chiB = [0,0,-0.7]`
with a mock evaluator returning `(1, 2)` on every key. -/
theorem eval_wrapper_all_witness :
    check_param_limits (43/10) ⟨0, 0, 3/5⟩ ⟨0, 0, -(7/10)⟩ = .ok [] ∧
    runEval (fun _ => ((1 : ℚ), (2 : ℚ))) "all" (43/10) ⟨0, 0, 3/5⟩ ⟨0, 0, -(7/10)⟩ [] =
      (.ok ([], some (.full 1 ⟨0, 0, 1⟩ ⟨1, 1, 0⟩ 2 ⟨0, 0, 2⟩ ⟨2, 2, 0⟩)),
       ["mC", "chiCz", "velCx", "velCy"]) := by
  have h : check_param_limits (43/10) ⟨0, 0, 3/5⟩ ⟨0, 0, -(7/10)⟩ = .ok [] := by
    norm_num [check_param_limits, inPlaneBad, inPlaneTol, abs]
  exact ⟨h, eval_wrapper_all (fun _ => (1, 2)) (43/10) _ _ [] h⟩

/-- C7: for every input accepted by the validator (and with no keyword
options): fit key `'mC'` makes exactly one evaluator call (`mC`) and
returns the scalar pair; `'chiC'` makes exactly one call (`chiCz`) and
returns `((0,0,chiCz), (0,0,chiCz_err))`; `'velC'` makes exactly two calls
(`velCx`, `velCy`) and returns `((velCx,velCy,0), (velCx_err,velCy_err,0))`;
the zero components are fixed regardless of the evaluator output. -/
theorem eval_wrapper_single_keys (ev : String → ℚ × ℚ) (q : ℚ)
    (chiA chiB : Vec3) (ws : List String)
    (h : check_param_limits q chiA chiB = .ok ws) :
    runEval ev "mC" q chiA chiB [] =
      (.ok (ws, some (.scalar (ev "mC").1 (ev "mC").2)), ["mC"]) ∧
    runEval ev "chiC" q chiA chiB [] =
      (.ok (ws, some (.vector ⟨0, 0, (ev "chiCz").1⟩ ⟨0, 0, (ev "chiCz").2⟩)),
       ["chiCz"]) ∧
    runEval ev "velC" q chiA chiB [] =
      (.ok (ws, some (.vector ⟨(ev "velCx").1, (ev "velCy").1, 0⟩
        ⟨(ev "velCx").2, (ev "velCy").2, 0⟩)), ["velCx", "velCy"]) := by
  refine ⟨?_, ?_, ?_⟩ <;> (simp only [runEval, eval_wrapper, h, liftCheck]; rfl)

/-- Witness for C7 at `q = 2`, zero spins, mock evaluator `(3, 4)`. -/
theorem eval_wrapper_single_keys_witness :
    check_param_limits 2 ⟨0, 0, 0⟩ ⟨0, 0, 0⟩ = .ok [] ∧
    (runEval (fun _ => ((3 : ℚ), (4 : ℚ))) "mC" 2 ⟨0, 0, 0⟩ ⟨0, 0, 0⟩ [] =
      (.ok ([], some (.scalar 3 4)), ["mC"]) ∧
    runEval (fun _ => ((3 : ℚ), (4 : ℚ))) "chiC" 2 ⟨0, 0, 0⟩ ⟨0, 0, 0⟩ [] =
      (.ok ([], some (.vector ⟨0, 0, 3⟩ ⟨0, 0, 4⟩)), ["chiCz"]) ∧
    runEval (fun _ => ((3 : ℚ), (4 : ℚ))) "velC" 2 ⟨0, 0, 0⟩ ⟨0, 0, 0⟩ [] =
      (.ok ([], some (.vector ⟨3, 3, 0⟩ ⟨4, 4, 0⟩)), ["velCx", "velCy"])) := by
  have h : check_param_limits 2 ⟨0, 0, 0⟩ ⟨0, 0, 0⟩ = .ok [] := by
    norm_num [check_param_limits, inPlaneBad, inPlaneTol, abs]
  exact ⟨h, eval_wrapper_single_keys (fun _ => (3, 4)) 2 _ _ [] h⟩

/-- C8: whenever validation fails, or an unrecognized keyword option is
passed, `_eval_wrapper` raises before any evaluator call: the call log is
empty and no partial result exists.  Range validation runs before the
unused-keyword check (a validation error wins even when bad options are
also present), and both run before any evaluator call. -/
theorem eval_wrapper_eager_errors (ev : String → ℚ × ℚ) (fit_key : String)
    (q : ℚ) (chiA chiB : Vec3) (kwargs : List String) :
    (∀ e, check_param_limits q chiA chiB = .error e →
      runEval ev fit_key q chiA chiB kwargs = (.error e, [])) ∧
    (∀ ws k ks, check_param_limits q chiA chiB = .ok ws → kwargs = k :: ks →
      runEval ev fit_key q chiA chiB kwargs =
        (.error (.unsupportedOption k), [])) := by
  constructor
  · intro e h
    simp only [runEval, eval_wrapper, h, liftCheck]
    rfl
  · intro ws k ks h hk
    subst hk
    simp only [runEval, eval_wrapper, h, liftCheck, check_unused_kwargs]
    rfl

/-- Witness for C8: a bad mass ratio with a stray option gives the
validation error with zero calls; good parameters with a stray option give
the unsupported-option error with zero calls. -/
theorem eval_wrapper_eager_errors_witness :
    runEval (fun _ => ((1 : ℚ), (2 : ℚ))) "mC" (1/2) ⟨0, 0, 0⟩ ⟨0, 0, 0⟩ ["foo"] =
      (.error (.invalidInput "Mass ratio should be >= 1."), []) ∧
    runEval (fun _ => ((1 : ℚ), (2 : ℚ))) "mC" 2 ⟨0, 0, 0⟩ ⟨0, 0, 0⟩ ["foo"] =
      (.error (.unsupportedOption "foo"), []) := by
  constructor
  · exact (eval_wrapper_eager_errors (fun _ => (1, 2)) "mC" (1/2) ⟨0, 0, 0⟩ ⟨0, 0, 0⟩
      ["foo"]).1 (.invalidInput "Mass ratio should be >= 1.")
      (by norm_num [check_param_limits, inPlaneBad, inPlaneTol])
  · exact (eval_wrapper_eager_errors (fun _ => (1, 2)) "mC" 2 ⟨0, 0, 0⟩ ⟨0, 0, 0⟩
      ["foo"]).2 [] "foo" []
      (by norm_num [check_param_limits, inPlaneBad, inPlaneTol, abs]) rfl

/-- C10: a fit key outside `{mC, chiC, velC, all}` matches no dispatch
branch once validation and the keyword check pass: zero evaluator calls are
made and `none` is returned instead of an error. -/
theorem eval_wrapper_unknown_key (ev : String → ℚ × ℚ) (fit_key : String)
    (q : ℚ) (chiA chiB : Vec3) (ws : List String)
    (h : check_param_limits q chiA chiB = .ok ws)
    (h1 : fit_key ≠ "mC") (h2 : fit_key ≠ "chiC")
    (h3 : fit_key ≠ "velC") (h4 : fit_key ≠ "all") :
    runEval ev fit_key q chiA chiB [] = (.ok (ws, none), []) := by
  simp only [runEval, eval_wrapper, h, liftCheck, check_unused_kwargs,
    h1, h2, h3, h4, if_false]
  rfl

/-- Witness for C10 with the unrecognized fit key `bogus`. -/
theorem eval_wrapper_unknown_key_witness :
    runEval (fun _ => ((1 : ℚ), (2 : ℚ))) "bogus" 2 ⟨0, 0, 0⟩ ⟨0, 0, 0⟩ [] =
      (.ok ([], none), []) :=
  eval_wrapper_unknown_key (fun _ => (1, 2)) "bogus" 2 ⟨0, 0, 0⟩ ⟨0, 0, 0⟩ []
    (by norm_num [check_param_limits, inPlaneBad, inPlaneTol, abs])
    (by decide) (by decide) (by decide) (by decide)

/-- C3: with the in-plane checks passing, the validator rejects `q < 1`
with `InvalidInput` (a `ValueError`), rejects `q > 10.01` with `OutOfRange`,
warns exactly once about `q` (and succeeds, spins being in training range)
for `8.01 < q ≤ 10.01`, and neither warns nor fails on `q` for
`1 ≤ q ≤ 8.01`; concretely `q = 0.5` is `InvalidInput`, `q = 9` succeeds
with exactly the one training-range warning, and `q = 11` is `OutOfRange`. -/
theorem check_param_limits_q_range (q : ℚ) (chiA chiB : Vec3)
    (hA : inPlaneBad chiA = false) (hB : inPlaneBad chiB = false) :
    (q < 1 → check_param_limits q chiA chiB =
      .error (.invalidInput "Mass ratio should be >= 1.")) ∧
    (10.01 < q → check_param_limits q chiA chiB =
      .error (.outOfRange "Mass ratio outside allowed range.")) ∧
    (8.01 < q → q ≤ 10.01 → |chiA.z| ≤ 1 → |chiB.z| ≤ 1 →
      check_param_limits q chiA chiB =
        .ok ("Mass ratio outside training range." ::
          ((if |chiA.z| > 0.81 then
              ["Spin magnitude of BhA outside training range."] else []) ++
           (if |chiB.z| > 0.81 then
              ["Spin magnitude of BhB outside training range."] else [])))) ∧
    (1 ≤ q → q ≤ 8.01 → |chiA.z| ≤ 1 → |chiB.z| ≤ 1 →
      check_param_limits q chiA chiB =
        .ok ((if |chiA.z| > 0.81 then
            ["Spin magnitude of BhA outside training range."] else []) ++
          (if |chiB.z| > 0.81 then
            ["Spin magnitude of BhB outside training range."] else []))) ∧
    check_param_limits (1/2) ⟨0, 0, 0⟩ ⟨0, 0, 0⟩ =
      .error (.invalidInput "Mass ratio should be >= 1.") ∧
    check_param_limits 9 ⟨0, 0, 0⟩ ⟨0, 0, 0⟩ =
      .ok ["Mass ratio outside training range."] ∧
    check_param_limits 11 ⟨0, 0, 0⟩ ⟨0, 0, 0⟩ =
      .error (.outOfRange "Mass ratio outside allowed range.") := by
  refine ⟨?_, ?_, ?_, ?_, ?_, ?_, ?_⟩
  · intro h
    simp [check_param_limits, hA, hB, h]
  · intro h
    have n1 : ¬ q < 1 := by linarith
    simp [check_param_limits, hA, hB, n1, h]
  · intro h1 h2 hAz hBz
    have n1 : ¬ q < 1 := by linarith
    have n2 : ¬ 10.01 < q := not_lt.mpr h2
    have nA : ¬ 1 < |chiA.z| := not_lt.mpr hAz
    have nB : ¬ 1 < |chiB.z| := not_lt.mpr hBz
    simp [check_param_limits, hA, hB, n1, n2, nA, nB, h1]
  · intro h1 h2 hAz hBz
    have n1 : ¬ q < 1 := by linarith
    have n2 : ¬ 10.01 < q := by linarith
    have n3 : ¬ 8.01 < q := not_lt.mpr h2
    have nA : ¬ 1 < |chiA.z| := not_lt.mpr hAz
    have nB : ¬ 1 < |chiB.z| := not_lt.mpr hBz
    simp [check_param_limits, hA, hB, n1, n2, n3, nA, nB]
  · norm_num [check_param_limits, inPlaneBad, inPlaneTol]
  · norm_num [check_param_limits, inPlaneBad, inPlaneTol, abs]
  · norm_num [check_param_limits, inPlaneBad, inPlaneTol]

/-- Witness for C3 at `q = 9` with silent spins: exactly one warning. -/
theorem check_param_limits_q_range_witness :
    inPlaneBad ⟨0, 0, (1 : ℚ)/2⟩ = false ∧
    check_param_limits 9 ⟨0, 0, 1/2⟩ ⟨0, 0, 1/2⟩ =
      .ok ["Mass ratio outside training range."] := by
  have hA : inPlaneBad ⟨0, 0, (1 : ℚ)/2⟩ = false := by
    norm_num [inPlaneBad, inPlaneTol]
  refine ⟨hA, ?_⟩
  have := (check_param_limits_q_range 9 ⟨0, 0, 1/2⟩ ⟨0, 0, 1/2⟩ hA hA).2.2.1
    (by norm_num) (by norm_num) (by norm_num [abs]) (by norm_num [abs])
  refine this.trans ?_
  norm_num [abs]

/-- C4: with the in-plane checks passing and `q` in the allowed range, the
validator applies the same z-spin rule independently to `chiA` and then
`chiB`: magnitude above `1.0` is an `OutOfRange` error, magnitude in
`(0.81, 1.0]` contributes exactly one training-range warning, and magnitude
at most `0.81` contributes nothing. -/
theorem check_param_limits_spin_range (q : ℚ) (chiA chiB : Vec3)
    (hA : inPlaneBad chiA = false) (hB : inPlaneBad chiB = false)
    (hq1 : 1 ≤ q) (hq2 : q ≤ 10.01) :
    (1 < |chiA.z| → check_param_limits q chiA chiB =
      .error (.outOfRange "Spin magnitude of BhA outside allowed range.")) ∧
    (|chiA.z| ≤ 1 → 1 < |chiB.z| → check_param_limits q chiA chiB =
      .error (.outOfRange "Spin magnitude of BhB outside allowed range.")) ∧
    (|chiA.z| ≤ 1 → |chiB.z| ≤ 1 → check_param_limits q chiA chiB =
      .ok ((if q > 8.01 then ["Mass ratio outside training range."] else []) ++
        (if |chiA.z| > 0.81 then
          ["Spin magnitude of BhA outside training range."] else []) ++
        (if |chiB.z| > 0.81 then
          ["Spin magnitude of BhB outside training range."] else []))) := by
  have n1 : ¬ q < 1 := by linarith
  have n2 : ¬ 10.01 < q := not_lt.mpr hq2
  refine ⟨?_, ?_, ?_⟩
  · intro h
    simp [check_param_limits, hA, hB, n1, n2, h]
  · intro hAz h
    have nA : ¬ 1 < |chiA.z| := not_lt.mpr hAz
    simp [check_param_limits, hA, hB, n1, n2, nA, h]
  · intro hAz hBz
    have nA : ¬ 1 < |chiA.z| := not_lt.mpr hAz
    have nB : ¬ 1 < |chiB.z| := not_lt.mpr hBz
    simp [check_param_limits, hA, hB, n1, n2, nA, nB, List.append_assoc]

/-- Witness for C4 at `q = 2`, `chiA.z = 0.9` (warn), `chiB.z = 0` (silent). -/
theorem check_param_limits_spin_range_witness :
    check_param_limits 2 ⟨0, 0, 9/10⟩ ⟨0, 0, 0⟩ =
      .ok ["Spin magnitude of BhA outside training range."] := by
  have hA : inPlaneBad ⟨0, 0, (9 : ℚ)/10⟩ = false := by
    norm_num [inPlaneBad, inPlaneTol]
  have hB : inPlaneBad ⟨0, 0, (0 : ℚ)⟩ = false := by
    norm_num [inPlaneBad, inPlaneTol]
  have := (check_param_limits_spin_range 2 ⟨0, 0, 9/10⟩ ⟨0, 0, 0⟩ hA hB
    (by norm_num) (by norm_num)).2.2 (by norm_num [abs]) (by norm_num [abs])
  refine this.trans ?_
  norm_num [abs]

/-- C5: the aligned-spin precondition fails with `InvalidInput` exactly when
the in-plane magnitude `sqrt(x^2 + y^2)` of `chiA`, or else that of `chiB`,
strictly exceeds `1e-10`; a magnitude of exactly `1e-10` or below passes.
Concretely `chiA = [0.1, 0, 0.5]` fails with `InvalidInput`. -/
theorem check_param_limits_inplane_iff :
    (∀ (q : ℚ) (chiA chiB : Vec3),
      (check_param_limits q chiA chiB =
          .error (.invalidInput "The x and y components of chiA should be zero.") ∨
       check_param_limits q chiA chiB =
          .error (.invalidInput "The x and y components of chiB should be zero.")) ↔
      ((1e-10 : ℝ) < Real.sqrt ((chiA.x : ℝ) ^ 2 + (chiA.y : ℝ) ^ 2) ∨
       (1e-10 : ℝ) < Real.sqrt ((chiB.x : ℝ) ^ 2 + (chiB.y : ℝ) ^ 2))) ∧
    check_param_limits 2 ⟨1/10, 0, 1/2⟩ ⟨0, 0, 0⟩ =
      .error (.invalidInput "The x and y components of chiA should be zero.") := by
  constructor
  · intro q chiA chiB
    rw [← inPlaneBad_iff_sqrt, ← inPlaneBad_iff_sqrt]
    rcases hA : inPlaneBad chiA with _ | _
    · rcases hB : inPlaneBad chiB with _ | _
      · simp only [Bool.false_eq_true, or_false]
        constructor
        · rintro (h | h) <;>
          · rw [check_param_limits] at h
            simp [hA, hB] at h
            split_ifs at h <;> simp_all
        · intro h
          exact absurd h (by simp)
      · simp only [hB, or_true, iff_true]
        right
        simp [check_param_limits, hA, hB]
    · simp only [hA, true_or, iff_true]
      left
      simp [check_param_limits, hA]
  · norm_num [check_param_limits, inPlaneBad, inPlaneTol]

/-- C6 counterexample: for `chiA = [1e-9, 1e-9, 0.5]` (with valid `q = 2`
and aligned `chiB = 0`) the validator does raise `InvalidInput` for the
in-plane components of `chiA` — the in-plane magnitude
`sqrt(2e-18) ≈ 1.414e-9` exceeds the `1e-10` tolerance. -/
theorem check_param_limits_small_inplane_rejected :
    check_param_limits 2 ⟨1e-9, 1e-9, 1/2⟩ ⟨0, 0, 0⟩ =
      .error (.invalidInput "The x and y components of chiA should be zero.") := by
  norm_num [check_param_limits, inPlaneBad, inPlaneTol]

/-- C6 amended: `chiA = [1e-9, 1e-9, 0.5]` fails the in-plane check
(`InvalidInput`), because its in-plane magnitude strictly exceeds the
`1e-10` tolerance over the reals. -/
theorem check_param_limits_small_inplane_amended :
    (1e-10 : ℝ) < Real.sqrt (((1e-9 : ℚ) : ℝ) ^ 2 + ((1e-9 : ℚ) : ℝ) ^ 2) ∧
    check_param_limits 2 ⟨1e-9, 1e-9, 1/2⟩ ⟨0, 0, 0⟩ =
      .error (.invalidInput "The x and y components of chiA should be zero.") := by
  constructor
  · have h : inPlaneBad ⟨1e-9, 1e-9, 1/2⟩ = true := by
      norm_num [inPlaneBad, inPlaneTol]
    exact (inPlaneBad_iff_sqrt ⟨1e-9, 1e-9, 1/2⟩).mp h
  · norm_num [check_param_limits, inPlaneBad, inPlaneTol]

/-- C9: within one validation call the first hard violation wins, in the
fixed order chiA in-plane, chiB in-plane, `q` range, chiA z-spin, chiB
z-spin; the `q`, chiA-spin and chiB-spin groups are not short-circuited
across one another, so a call with `8.01 < q ≤ 10.01` and both z-spin
magnitudes in `(0.81, 1]` emits three warnings and still succeeds. -/
theorem check_param_limits_order (q : ℚ) (chiA chiB : Vec3) :
    (inPlaneBad chiA = true → check_param_limits q chiA chiB =
      .error (.invalidInput "The x and y components of chiA should be zero.")) ∧
    (inPlaneBad chiA = false → inPlaneBad chiB = true →
      check_param_limits q chiA chiB =
        .error (.invalidInput "The x and y components of chiB should be zero.")) ∧
    (inPlaneBad chiA = false → inPlaneBad chiB = false → q < 1 →
      check_param_limits q chiA chiB =
        .error (.invalidInput "Mass ratio should be >= 1.")) ∧
    (inPlaneBad chiA = false → inPlaneBad chiB = false → 10.01 < q →
      check_param_limits q chiA chiB =
        .error (.outOfRange "Mass ratio outside allowed range.")) ∧
    (inPlaneBad chiA = false → inPlaneBad chiB = false → 1 ≤ q → q ≤ 10.01 →
      1 < |chiA.z| → check_param_limits q chiA chiB =
        .error (.outOfRange "Spin magnitude of BhA outside allowed range.")) ∧
    (inPlaneBad chiA = false → inPlaneBad chiB = false → 1 ≤ q → q ≤ 10.01 →
      |chiA.z| ≤ 1 → 1 < |chiB.z| → check_param_limits q chiA chiB =
        .error (.outOfRange "Spin magnitude of BhB outside allowed range.")) ∧
    (inPlaneBad chiA = false → inPlaneBad chiB = false → 8.01 < q → q ≤ 10.01 →
      0.81 < |chiA.z| → |chiA.z| ≤ 1 → 0.81 < |chiB.z| → |chiB.z| ≤ 1 →
      check_param_limits q chiA chiB =
        .ok ["Mass ratio outside training range.",
             "Spin magnitude of BhA outside training range.",
             "Spin magnitude of BhB outside training range."]) := by
  refine ⟨?_, ?_, ?_, ?_, ?_, ?_, ?_⟩
  · intro hA
    simp [check_param_limits, hA]
  · intro hA hB
    simp [check_param_limits, hA, hB]
  · intro hA hB h
    simp [check_param_limits, hA, hB, h]
  · intro hA hB h
    have n1 : ¬ q < 1 := by linarith
    simp [check_param_limits, hA, hB, n1, h]
  · intro hA hB hq1 hq2 h
    have n1 : ¬ q < 1 := by linarith
    have n2 : ¬ 10.01 < q := not_lt.mpr hq2
    simp [check_param_limits, hA, hB, n1, n2, h]
  · intro hA hB hq1 hq2 hAz h
    have n1 : ¬ q < 1 := by linarith
    have n2 : ¬ 10.01 < q := not_lt.mpr hq2
    have nA : ¬ 1 < |chiA.z| := not_lt.mpr hAz
    simp [check_param_limits, hA, hB, n1, n2, nA, h]
  · intro hA hB hq1 hq2 hA1 hA2 hB1 hB2
    have n1 : ¬ q < 1 := by linarith
    have n2 : ¬ 10.01 < q := not_lt.mpr hq2
    have nA : ¬ 1 < |chiA.z| := not_lt.mpr hA2
    have nB : ¬ 1 < |chiB.z| := not_lt.mpr hB2
    simp [check_param_limits, hA, hB, n1, n2, nA, nB, hq1, hA1, hB1]

/-- Witness for C9: `q = 9`, `chiA.z = 0.9`, `chiB.z = -0.9` — three
warnings, success. -/
theorem check_param_limits_order_witness :
    check_param_limits 9 ⟨0, 0, 9/10⟩ ⟨0, 0, -(9/10)⟩ =
      .ok ["Mass ratio outside training range.",
           "Spin magnitude of BhA outside training range.",
           "Spin magnitude of BhB outside training range."] := by
  have hA : inPlaneBad ⟨0, 0, (9 : ℚ)/10⟩ = false := by
    norm_num [inPlaneBad, inPlaneTol]
  have hB : inPlaneBad ⟨0, 0, -((9 : ℚ)/10)⟩ = false := by
    norm_num [inPlaneBad, inPlaneTol]
  exact (check_param_limits_order 9 ⟨0, 0, 9/10⟩ ⟨0, 0, -(9/10)⟩).2.2.2.2.2.2
    hA hB (by norm_num) (by norm_num) (by norm_num [abs]) (by norm_num [abs])
    (by norm_num [abs]) (by norm_num [abs])

end SurfinBH3dq8
